import Mathlib

/-!
Shallow embedding of the recipe-app-api backend (Django/DRF project with a
user app, a recipe app and a core data model).  The persistent store is a
record of lists; the viewset methods of `src/app/recipe/views.py` become
functions over that store; request dispatch with token authentication
becomes the function `handle`.  Parts of the repository whose source files
are not available (the core model managers and the user app views and
serializers) are modelled from the specification and marked as such in
their doc comments.
-/

namespace RecipeApp

/-- A user account (core.models.User): numeric primary key, email as the
natural key, credential and display name.  Emails and tokens are lists of
characters so that normalization can be reasoned about structurally.
Password hashing internals are out of scope per the spec, so the
credential is compared directly. -/
structure User where
  id : Nat
  email : List Char
  password : String
  name : String
deriving DecidableEq

/-- A tag (core.models.Tag): name plus owning user's id. -/
structure Tag where
  id : Nat
  user : Nat
  name : String
deriving DecidableEq

/-- An ingredient (core.models.Ingredient): name plus owning user's id. -/
structure Ingredient where
  id : Nat
  user : Nat
  name : String
deriving DecidableEq

/-- A recipe (core.models.Recipe): title, time estimate, price, owning
user's id, many-to-many tag and ingredient id sets, optional image path. -/
structure Recipe where
  id : Nat
  user : Nat
  title : String
  time_minutes : Nat
  price : Nat
  tags : List Nat
  ingredients : List Nat
  image : Option String
deriving DecidableEq

/-- The persistent store: all rows of every table, plus the issued
authentication tokens (token, user id). -/
structure Store where
  users : List User
  tags : List Tag
  ingredients : List Ingredient
  recipes : List Recipe
  tokens : List (List Char × Nat)
deriving DecidableEq

/-- Strict lexicographic order on character lists by character code. -/
def charsLt : List Char → List Char → Bool
  | [], [] => false
  | [], _ :: _ => true
  | _ :: _, [] => false
  | a :: as, b :: bs =>
    if a.toNat < b.toNat then true
    else if b.toNat < a.toNat then false
    else charsLt as bs

/-- Strict lexicographic order on strings by character code (the collation
used for the ORM's name ordering; the exact collation is immaterial to the
claims). -/
def strLt (a b : String) : Bool := charsLt a.data b.data

/-- Insert `x` into a list sorted descending by the string key, keeping it
sorted: `x` goes before the first element it is not below. -/
def insertDescBy {α : Type} (key : α → String) (x : α) : List α → List α
  | [] => [x]
  | y :: ys => if strLt (key x) (key y) then y :: insertDescBy key x ys else x :: y :: ys

/-- Sort a list descending by a string key (the embedding of the ORM's
order_by on a minus-prefixed name column). -/
def sortDescBy {α : Type} (key : α → String) (l : List α) : List α :=
  l.foldr (insertDescBy key) []

/-- Split a list at the first occurrence of `sep`, returning the parts
before and after it, or `none` when `sep` does not occur. -/
def splitAtFirst {α : Type} [DecidableEq α] (sep : α) : List α → Option (List α × List α)
  | [] => none
  | c :: cs =>
    if c = sep then some ([], cs)
    else (splitAtFirst sep cs).map (fun p => (c :: p.1, p.2))

/-- Split a list at the last occurrence of `sep` (Python's rsplit with
maxsplit 1), returning the parts before and after that occurrence. -/
def rsplitAtLast {α : Type} [DecidableEq α] (sep : α) (l : List α) : Option (List α × List α) :=
  match splitAtFirst sep l.reverse with
  | none => none
  | some p => some (p.2.reverse, p.1.reverse)

/-- Modelled from the spec: `core/models.py` is not among the available
sources, only its tests are.  The user manager's email normalization
("normalized by lower-casing the domain portion only"): the email is split
at the last at-sign and the domain part is lower-cased, the local part is
left untouched; an email with no at-sign is returned unchanged. -/
def normalize_email (email : List Char) : List Char :=
  match rsplitAtLast '@' email with
  | none => email
  | some p => p.1 ++ '@' :: p.2.map Char.toLower

/-- Next primary key for a users row. -/
def nextUserId (st : Store) : Nat :=
  st.users.foldl (fun m u => max m u.id) 0 + 1

/-- Next primary key for a tags row. -/
def nextTagId (st : Store) : Nat :=
  st.tags.foldl (fun m t => max m t.id) 0 + 1

/-- Next primary key for an ingredients row. -/
def nextIngredientId (st : Store) : Nat :=
  st.ingredients.foldl (fun m i => max m i.id) 0 + 1

/-- Next primary key for a recipes row. -/
def nextRecipeId (st : Store) : Nat :=
  st.recipes.foldl (fun m r => max m r.id) 0 + 1

/-- Modelled from the spec: `core/models.py` (UserManager.create_user) and
the user app's registration view/serializer are not among the available
sources, only their tests are.  Registration rejects an empty email and a
duplicate of an existing account's normalized email (unique natural key),
and otherwise persists a user whose stored email is the normalized input. -/
def create_user (st : Store) (email : List Char) (pw pname : String) :
    Except Nat Store :=
  if email = [] then .error 400
  else if st.users.any (fun u => u.email == normalize_email email) then .error 400
  else .ok { st with users := st.users ++
    [{ id := nextUserId st, email := normalize_email email,
       password := pw, name := pname }] }

/-- The opaque bearer token issued for a user id; its exact shape is
immaterial, it only has to be non-empty and resolvable back to the user. -/
def mkToken (uid : Nat) : List Char :=
  't' :: 'o' :: 'k' :: Nat.toDigits 10 uid

/-- Modelled from the spec: the user app's token view/serializer is not
among the available sources, only its tests and `user/urls.py` are.
`issue_token` validates the credentials against the account whose natural
key is the normalized email and fails with a 400 (carrying no token) on an
empty password, an unknown email, or a wrong password; on success it
records and returns a fresh bearer token. -/
def issueToken (st : Store) (email : List Char) (pw : String) :
    Except Nat (List Char × Store) :=
  if pw = "" then .error 400
  else
    match st.users.find? (fun u => u.email == normalize_email email) with
    | none => .error 400
    | some u =>
      if u.password == pw then
        .ok (mkToken u.id, { st with tokens := st.tokens ++ [(mkToken u.id, u.id)] })
      else .error 400

/-- Resolve a presented bearer credential to a user id (TokenAuthentication):
an absent or unknown token resolves to nobody. -/
def resolveToken (st : Store) (cred : Option (List Char)) : Option Nat :=
  match cred with
  | none => none
  | some c => (st.tokens.find? (fun p => p.1 == c)).map (fun p => p.2)

/-- `BaseRecipeAttrViewSet.get_queryset` for tags (views.py lines 17-19):
the stored tags filtered to the requesting user, ordered by name
descending.  The `assigned_only` query parameter is accepted by the API
surface but this method never reads `self.request.query_params`, so the
argument is ignored exactly as the source ignores it. -/
def tag_get_queryset (st : Store) (uid : Nat) (assignedOnly : Option String) :
    List Tag :=
  sortDescBy Tag.name (st.tags.filter (fun t => t.user == uid))

/-- `BaseRecipeAttrViewSet.get_queryset` for ingredients (views.py lines
17-19): the stored ingredients filtered to the requesting user, ordered by
name descending; the `assigned_only` parameter is ignored as in the source. -/
def ingredient_get_queryset (st : Store) (uid : Nat) (assignedOnly : Option String) :
    List Ingredient :=
  sortDescBy Ingredient.name (st.ingredients.filter (fun i => i.user == uid))

/-- `RecipeViewSet.get_queryset` (views.py lines 44-46): the stored recipes
filtered to the requesting user, in store order (the method applies no
order_by).  The `tags` and `ingredients` comma-separated query parameters
are accepted by the API surface but this method never reads
`self.request.query_params`, so both arguments are ignored exactly as the
source ignores them. -/
def recipe_get_queryset (st : Store) (uid : Nat)
    (tagsParam ingredientsParam : Option String) : List Recipe :=
  st.recipes.filter (fun r => r.user == uid)

/-- DRF detail lookup for a recipe: `get_object` looks the primary key up
inside `get_queryset()`, so ownership filtering happens before the lookup. -/
def retrieveRecipe (st : Store) (uid : Nat) (rid : Nat) : Option Recipe :=
  (recipe_get_queryset st uid none none).find? (fun r => r.id == rid)

/-- Tag creation: the serializer (not among the available sources; modelled
from the spec, name required non-empty) validates, then
`BaseRecipeAttrViewSet.perform_create` (views.py lines 21-23) persists the
row with the requesting user as owner. -/
def createTag (st : Store) (uid : Nat) (tname : String) : Except Nat Store :=
  if tname = "" then .error 400
  else .ok { st with tags := st.tags ++ [{ id := nextTagId st, user := uid, name := tname }] }

/-- Ingredient creation, exactly as tag creation. -/
def createIngredient (st : Store) (uid : Nat) (iname : String) : Except Nat Store :=
  if iname = "" then .error 400
  else .ok { st with ingredients := st.ingredients ++
    [{ id := nextIngredientId st, user := uid, name := iname }] }

/-- Recipe creation: the serializer (not among the available sources;
modelled from the spec, title required) validates, then
`RecipeViewSet.perform_create` (views.py lines 55-57) persists the row with
the requesting user as owner. -/
def createRecipe (st : Store) (uid : Nat) (title : String)
    (tm pr : Nat) (tg ing : List Nat) : Except Nat Store :=
  if title = "" then .error 400
  else .ok { st with recipes := st.recipes ++
    [{ id := nextRecipeId st, user := uid, title := title, time_minutes := tm,
       price := pr, tags := tg, ingredients := ing, image := none }] }

/-- One API request with its payload.  The authenticated endpoints carry the
optional bearer credential of the request; registration and token issuance
carry none because `user/urls.py` and the spec expose them publicly. -/
inductive Request where
  | tagList (cred : Option (List Char)) (assignedOnly : Option String)
  | tagCreate (cred : Option (List Char)) (tname : String)
  | ingredientList (cred : Option (List Char)) (assignedOnly : Option String)
  | ingredientCreate (cred : Option (List Char)) (iname : String)
  | recipeList (cred : Option (List Char)) (tagsParam ingredientsParam : Option String)
  | recipeCreate (cred : Option (List Char)) (title : String) (tm pr : Nat)
      (tg ing : List Nat)
  | recipeDetail (cred : Option (List Char)) (rid : Nat)
  | userMe (cred : Option (List Char))
  | userCreate (email : List Char) (pw pname : String)
  | userToken (email : List Char) (pw : String)
deriving DecidableEq

/-- The credential a request presents; registration and token issuance
present none. -/
def Request.credential : Request → Option (List Char)
  | .tagList c _ => c
  | .tagCreate c _ => c
  | .ingredientList c _ => c
  | .ingredientCreate c _ => c
  | .recipeList c _ _ => c
  | .recipeCreate c _ _ _ _ _ => c
  | .recipeDetail c _ => c
  | .userMe c => c
  | .userCreate _ _ _ => none
  | .userToken _ _ => none

/-- Whether the endpoint is guarded by TokenAuthentication + IsAuthenticated:
true for every Tag/Ingredient/Recipe endpoint (views.py lines 12-13 and
41-42) and for the profile endpoint (modelled from the spec, the user app
views are not among the available sources); false only for registration and
token issuance. -/
def Request.requiresAuth : Request → Bool
  | .userCreate _ _ _ => false
  | .userToken _ _ => false
  | _ => true

/-- Request dispatch: the authentication gate runs first and rejects an
unresolvable credential on every guarded endpoint with a 401, leaving the
store untouched; otherwise the endpoint's operation runs.  Returns the
response status and the resulting store. -/
def handle (st : Store) (req : Request) : Nat × Store :=
  match req with
  | .userCreate email pw pname =>
    match create_user st email pw pname with
    | .ok st1 => (201, st1)
    | .error e => (e, st)
  | .userToken email pw =>
    match issueToken st email pw with
    | .ok p => (200, p.2)
    | .error e => (e, st)
  | .tagList cred a =>
    match resolveToken st cred with
    | none => (401, st)
    | some uid => let _ := tag_get_queryset st uid a; (200, st)
  | .tagCreate cred tname =>
    match resolveToken st cred with
    | none => (401, st)
    | some uid =>
      match createTag st uid tname with
      | .ok st1 => (201, st1)
      | .error e => (e, st)
  | .ingredientList cred a =>
    match resolveToken st cred with
    | none => (401, st)
    | some uid => let _ := ingredient_get_queryset st uid a; (200, st)
  | .ingredientCreate cred iname =>
    match resolveToken st cred with
    | none => (401, st)
    | some uid =>
      match createIngredient st uid iname with
      | .ok st1 => (201, st1)
      | .error e => (e, st)
  | .recipeList cred tp ip =>
    match resolveToken st cred with
    | none => (401, st)
    | some uid => let _ := recipe_get_queryset st uid tp ip; (200, st)
  | .recipeCreate cred title tm pr tg ing =>
    match resolveToken st cred with
    | none => (401, st)
    | some uid =>
      match createRecipe st uid title tm pr tg ing with
      | .ok st1 => (201, st1)
      | .error e => (e, st)
  | .recipeDetail cred rid =>
    match resolveToken st cred with
    | none => (401, st)
    | some uid =>
      match retrieveRecipe st uid rid with
      | some _ => (200, st)
      | none => (404, st)
  | .userMe cred =>
    match resolveToken st cred with
    | none => (401, st)
    | some _ => (200, st)

/-- The store as it would be if every resource not owned by `uid` did not
exist; used to state that cross-owner access is indistinguishable from
non-existence. -/
def ownStore (st : Store) (uid : Nat) : Store :=
  { st with tags := st.tags.filter (fun t => t.user == uid),
            ingredients := st.ingredients.filter (fun i => i.user == uid),
            recipes := st.recipes.filter (fun r => r.user == uid) }

/-- A store with no rows at all. -/
def emptyStore : Store :=
  { users := [], tags := [], ingredients := [], recipes := [], tokens := [] }

/-- Recipe "recipe 1" of RecipeFilterTests, tagged with tag 1 and holding
ingredient 1. -/
def demoRecipe1 : Recipe :=
  { id := 1, user := 1, title := "recipe 1", time_minutes := 10, price := 5,
    tags := [1], ingredients := [1], image := none }

/-- Recipe "recipe 2" of RecipeFilterTests, tagged with tag 2 and holding
ingredient 2. -/
def demoRecipe2 : Recipe :=
  { id := 2, user := 1, title := "recipe 2", time_minutes := 10, price := 5,
    tags := [2], ingredients := [2], image := none }

/-- Recipe "recipe 3" of RecipeFilterTests, with no tags and no
ingredients. -/
def demoRecipe3 : Recipe :=
  { id := 3, user := 1, title := "recipe 3", time_minutes := 10, price := 5,
    tags := [], ingredients := [], image := none }

/-- The store of RecipeFilterTests: one user owning the three recipes above
and the two tags and two ingredients they reference. -/
def demoFilterStore : Store :=
  { users := [{ id := 1, email := "sample@user.com".data, password := "testpass",
                name := "" }],
    tags := [{ id := 1, user := 1, name := "tag 1" },
             { id := 2, user := 1, name := "tag 2" }],
    ingredients := [{ id := 1, user := 1, name := "ingr 1" },
                    { id := 2, user := 1, name := "ingr 2" }],
    recipes := [demoRecipe1, demoRecipe2, demoRecipe3],
    tokens := [("tok1".data, 1)] }

/-- The tag of PrivateTagApiTests.test_retrieve_tags_assigned_to_recipe
that is attached to a recipe. -/
def demoAssignedTag : Tag := { id := 1, user := 1, name := "tag1" }

/-- The tag of PrivateTagApiTests.test_retrieve_tags_assigned_to_recipe
that no recipe references. -/
def demoUnassignedTag : Tag := { id := 2, user := 1, name := "tag2" }

/-- The store of PrivateTagApiTests.test_retrieve_tags_assigned_to_recipe:
one user with two tags, only the first attached to the single recipe. -/
def demoAssignedStore : Store :=
  { users := [{ id := 1, email := "sample@gmail.com".data, password := "Testpass123",
                name := "" }],
    tags := [demoAssignedTag, demoUnassignedTag],
    ingredients := [],
    recipes := [{ id := 1, user := 1, title := "recipe", time_minutes := 3,
                  price := 2, tags := [1], ingredients := [], image := none }],
    tokens := [("tok1".data, 1)] }

/-- The store of PrivateRecipeApiTest.test_retrieve_recipes: one user owning
two otherwise identical recipes inserted with ids 1 then 2. -/
def demoOrderStore : Store :=
  { users := [{ id := 1, email := "sample@gmail.com".data, password := "Testpass123",
                name := "" }],
    tags := [], ingredients := [],
    recipes := [{ id := 1, user := 1, title := "Sample Recipe", time_minutes := 10,
                  price := 5, tags := [], ingredients := [], image := none },
                { id := 2, user := 1, title := "Sample Recipe", time_minutes := 10,
                  price := 5, tags := [], ingredients := [], image := none }],
    tokens := [] }

/-- A store with a second user owning nothing: user 1 owns one tag, one
ingredient and one recipe; user 2 is authenticated with token "tok2" and
owns nothing. -/
def demoTwoUserStore : Store :=
  { users := [{ id := 1, email := "sample@gmail.com".data, password := "Testpass123",
                name := "" },
              { id := 2, email := "another@gmail.com".data, password := "anotherpass123",
                name := "" }],
    tags := [{ id := 1, user := 1, name := "Fruity" }],
    ingredients := [{ id := 1, user := 1, name := "Duck" }],
    recipes := [{ id := 1, user := 1, title := "Sample Recipe", time_minutes := 10,
                  price := 5, tags := [1], ingredients := [1], image := none }],
    tokens := [("tok1".data, 1), ("tok2".data, 2)] }

/-- The actions the DRF router generates for `RecipeViewSet`: the six
standard ModelViewSet actions plus every extra `@action`-decorated method
declared in the class body of views.py lines 38-57 (there are none: the
body declares only get_queryset, get_serializer_class and perform_create). -/
def recipeViewSetExtraActions : List String := []

/-- All routable actions of `RecipeViewSet`. -/
def recipeViewSetActions : List String :=
  ["list", "create", "retrieve", "update", "partial_update", "destroy"]
    ++ recipeViewSetExtraActions

/-- The user row that a successful registration appends. -/
def registeredUser (st : Store) (email : List Char) (pw pname : String) : User :=
  { id := nextUserId st, email := normalize_email email, password := pw, name := pname }

/-- The store after a successful registration. -/
def registeredStore (st : Store) (email : List Char) (pw pname : String) : Store :=
  { st with users := st.users ++ [registeredUser st email pw pname] }

/-! ### Helper lemmas -/

theorem mem_insertDescBy {α : Type} (key : α → String) (x a : α) (l : List α) :
    a ∈ insertDescBy key x l ↔ a = x ∨ a ∈ l := by
  induction l with
  | nil => simp [insertDescBy]
  | cons y ys ih =>
    simp only [insertDescBy]
    by_cases h : strLt (key x) (key y) = true
    · rw [if_pos h]
      simp only [List.mem_cons, ih]
      tauto
    · rw [if_neg h]
      simp only [List.mem_cons]

theorem mem_sortDescBy {α : Type} (key : α → String) (a : α) (l : List α) :
    a ∈ sortDescBy key l ↔ a ∈ l := by
  induction l with
  | nil => simp [sortDescBy]
  | cons y ys ih =>
    show a ∈ insertDescBy key y (sortDescBy key ys) ↔ _
    rw [mem_insertDescBy, ih]
    simp [List.mem_cons]

theorem splitAtFirst_append {α : Type} [DecidableEq α] (sep : α) (a b : List α)
    (h : sep ∉ a) : splitAtFirst sep (a ++ sep :: b) = some (a, b) := by
  induction a with
  | nil => simp [splitAtFirst]
  | cons c cs ih =>
    have hc : ¬ c = sep := fun e => h (e ▸ List.mem_cons_self c cs)
    have hcs : sep ∉ cs := fun m => h (List.mem_cons_of_mem _ m)
    simp only [List.cons_append, splitAtFirst]
    rw [if_neg hc]
    show Option.map (fun p => (c :: p.1, p.2)) (splitAtFirst sep (cs ++ sep :: b))
      = some (c :: cs, b)
    rw [ih hcs]
    rfl

theorem rsplitAtLast_append {α : Type} [DecidableEq α] (sep : α) (a b : List α)
    (h : sep ∉ b) : rsplitAtLast sep (a ++ sep :: b) = some (a, b) := by
  have hrev : sep ∉ b.reverse := fun m => h (List.mem_reverse.mp m)
  have h1 : (a ++ sep :: b).reverse = b.reverse ++ sep :: a.reverse := by
    simp
  unfold rsplitAtLast
  rw [h1, splitAtFirst_append sep _ _ hrev]
  simp

theorem normalize_email_split (lp dom : List Char) (h : '@' ∉ dom) :
    normalize_email (lp ++ '@' :: dom) = lp ++ '@' :: dom.map Char.toLower := by
  unfold normalize_email
  rw [rsplitAtLast_append _ _ _ h]

theorem find?_append_of_none {α : Type} (p : α → Bool) (l1 l2 : List α)
    (h : ∀ x ∈ l1, p x = false) : (l1 ++ l2).find? p = l2.find? p := by
  induction l1 with
  | nil => rfl
  | cons c cs ih =>
    have hc := h c (List.mem_cons_self c cs)
    simp only [List.cons_append, List.find?, hc]
    exact ih (fun x m => h x (List.mem_cons_of_mem _ m))

theorem filter_self_idem {α : Type} (p : α → Bool) (l : List α) :
    (l.filter p).filter p = l.filter p := by
  induction l with
  | nil => rfl
  | cons c cs ih =>
    cases hc : p c <;> simp [List.filter_cons, hc, ih]

/-! ### Claims -/

/-- C1: for every store and authenticated caller, the Tag, Ingredient and
Recipe list querysets contain only resources owned by the caller; a detail
retrieve of a recipe id every holder of which is another user yields no
object and a 404 response with the store unchanged; and retrieval behaves
exactly as it would in a store in which other callers' resources do not
exist, so cross-owner access is indistinguishable from non-existence. -/
theorem C1_ownership_scoping (st : Store) (caller rid : Nat)
    (cred : Option (List Char)) :
    (∀ t ∈ tag_get_queryset st caller none, t.user = caller)
    ∧ (∀ i ∈ ingredient_get_queryset st caller none, i.user = caller)
    ∧ (∀ r ∈ recipe_get_queryset st caller none none, r.user = caller)
    ∧ ((∀ r ∈ st.recipes, r.id = rid → r.user ≠ caller) →
        retrieveRecipe st caller rid = none
        ∧ (resolveToken st cred = some caller →
            handle st (.recipeDetail cred rid) = (404, st)))
    ∧ retrieveRecipe st caller rid = retrieveRecipe (ownStore st caller) caller rid := by
  refine ⟨?_, ?_, ?_, ?_, ?_⟩
  · intro t ht
    rw [tag_get_queryset, mem_sortDescBy] at ht
    have h2 := (List.mem_filter.mp ht).2
    simpa using h2
  · intro i hi
    rw [ingredient_get_queryset, mem_sortDescBy] at hi
    have h2 := (List.mem_filter.mp hi).2
    simpa using h2
  · intro r hr
    rw [recipe_get_queryset] at hr
    have h2 := (List.mem_filter.mp hr).2
    simpa using h2
  · intro h
    have hnone : retrieveRecipe st caller rid = none := by
      rw [retrieveRecipe]
      apply List.find?_eq_none.mpr
      intro r hr hid
      have hf := List.mem_filter.mp hr
      have huser : r.user = caller := by simpa using hf.2
      have hrid : r.id = rid := by simpa using hid
      exact h r hf.1 hrid huser
    refine ⟨hnone, fun hres => ?_⟩
    simp [handle, hres, hnone]
  · rw [retrieveRecipe, retrieveRecipe]
    have : recipe_get_queryset (ownStore st caller) caller none none
        = recipe_get_queryset st caller none none := by
      rw [recipe_get_queryset, recipe_get_queryset, ownStore]
      exact filter_self_idem _ st.recipes
    rw [this]

/-- Witness for C1: in the two-user store, user 2 retrieving recipe 1
(owned by user 1) finds nothing. -/
theorem C1_ownership_scoping_witness :
    retrieveRecipe demoTwoUserStore 2 1 = none :=
  ((C1_ownership_scoping demoTwoUserStore 2 1 none).2.2.2.1 (by decide)).1

/-- C2: code evaluation at the failing input of
RecipeFilterTests.test_filter_recipe_by_tags.  With the tags parameter
"1,2" (and likewise with the ingredients parameter), the queryset of
views.py lines 44-46 is still all three of the caller's recipes: recipe 3,
whose tag set and ingredient set are empty and so intersect no identifier
set, is returned anyway, because the method never reads the query
parameters.  This contradicts the claim that the result is exactly the
recipes whose tag (or ingredient) set intersects the given identifiers. -/
theorem C2_filter_params_ignored :
    recipe_get_queryset demoFilterStore 1 (some "1,2") none
      = [demoRecipe1, demoRecipe2, demoRecipe3]
    ∧ recipe_get_queryset demoFilterStore 1 none (some "1,2")
      = [demoRecipe1, demoRecipe2, demoRecipe3]
    ∧ demoRecipe3.tags = [] ∧ demoRecipe3.ingredients = [] := by
  refine ⟨rfl, rfl, rfl, rfl⟩

/-- C3: code evaluation at the failing input of
PrivateTagApiTests.test_retrieve_tags_assigned_to_recipe.  With the
assigned_only flag set, the queryset of views.py lines 17-19 still contains
tag "tag2" even though no recipe of the caller references it, because the
method never reads the query parameters; the claim says only referenced
tags are returned. -/
theorem C3_assigned_only_ignored :
    tag_get_queryset demoAssignedStore 1 (some "1")
      = [demoUnassignedTag, demoAssignedTag]
    ∧ demoAssignedStore.recipes.all
        (fun r => !(r.tags.contains demoUnassignedTag.id)) = true := by
  constructor
  · decide
  · decide

/-- C7: code evaluation: RecipeViewSet (views.py lines 38-57) declares no
extra `@action`, so its routable actions are exactly the six ModelViewSet
defaults and no upload-image endpoint exists; the claim (and
RecipeImageUploadTests) require an attach-image operation. -/
theorem C7_no_upload_image_action :
    recipeViewSetActions
      = ["list", "create", "retrieve", "update", "partial_update", "destroy"]
    ∧ recipeViewSetActions.contains "upload_image" = false
    ∧ recipeViewSetActions.contains "upload-image" = false
    ∧ recipeViewSetExtraActions = [] := by
  refine ⟨rfl, by decide, by decide, rfl⟩

/-- C8: code evaluation at the failing input of
PrivateRecipeApiTest.test_retrieve_recipes.  The recipe queryset of
views.py lines 44-46 applies no order_by, so two recipes inserted with ids
1 then 2 come back in store order [1, 2] and not in the descending id
order [2, 1] the claim states (the tag/ingredient name-descending ordering
of lines 17-19, by contrast, is real). -/
theorem C8_recipe_order_not_descending :
    (recipe_get_queryset demoOrderStore 1 none none).map Recipe.id = [1, 2]
    ∧ ((recipe_get_queryset demoOrderStore 1 none none).map Recipe.id == [2, 1])
        = false := by
  refine ⟨rfl, by decide⟩

/-- C4: registering a fresh account with a non-empty email and password and
then requesting a token with the same credentials succeeds and yields a
non-empty token; a token request with any other password (in particular an
empty one) or with an email no stored account has yields an error 400 whose
response carries no token. -/
theorem C4_token_roundtrip (st : Store) (email : List Char) (pw pname : String)
    (hemail : email ≠ [])
    (hpw : pw ≠ "")
    (hfresh : ∀ u ∈ st.users, u.email ≠ normalize_email email) :
    create_user st email pw pname = .ok (registeredStore st email pw pname)
    ∧ (∃ tok st2, issueToken (registeredStore st email pw pname) email pw = .ok (tok, st2)
        ∧ tok ≠ [])
    ∧ (∀ pw2, pw2 ≠ pw →
        issueToken (registeredStore st email pw pname) email pw2 = .error 400)
    ∧ (∀ e2, (∀ u ∈ (registeredStore st email pw pname).users,
          u.email ≠ normalize_email e2) →
        issueToken (registeredStore st email pw pname) e2 pw = .error 400) := by
  have hany : st.users.any (fun u => u.email == normalize_email email) = false := by
    rw [List.any_eq_false]
    intro u hu
    simp [hfresh u hu]
  have hfind : (registeredStore st email pw pname).users.find?
      (fun u => u.email == normalize_email email)
      = some (registeredUser st email pw pname) := by
    show (st.users ++ [registeredUser st email pw pname]).find? _ = _
    rw [find?_append_of_none]
    · simp [List.find?, registeredUser]
    · intro u hu
      simp [hfresh u hu]
  refine ⟨?_, ?_, ?_, ?_⟩
  · rw [create_user, if_neg hemail, if_neg (by simp [hany])]
    rfl
  · refine ⟨mkToken (registeredUser st email pw pname).id,
      { registeredStore st email pw pname with
        tokens := (registeredStore st email pw pname).tokens
          ++ [(mkToken (registeredUser st email pw pname).id,
               (registeredUser st email pw pname).id)] }, ?_, by simp [mkToken]⟩
    rw [issueToken, if_neg hpw, hfind]
    simp [registeredUser]
  · intro pw2 hne
    by_cases h2 : pw2 = ""
    · rw [issueToken, if_pos h2]
    · have hp : ((registeredUser st email pw pname).password == pw2) = false := by
        simp only [registeredUser, beq_eq_false_iff_ne, ne_eq]
        exact fun e => hne e.symm
      rw [issueToken, if_neg h2, hfind]
      simp [hp]
  · intro e2 hmiss
    have hnone : (registeredStore st email pw pname).users.find?
        (fun u => u.email == normalize_email e2) = none := by
      apply List.find?_eq_none.mpr
      intro u hu
      simp [hmiss u hu]
    rw [issueToken, if_neg hpw, hnone]

/-- Witness for C4: registering sample@gmail.com / Testpass123 in the empty
store and asking for a token with the same credentials yields a non-empty
token. -/
theorem C4_token_roundtrip_witness :
    create_user emptyStore "sample@gmail.com".data "Testpass123" "Basic user"
      = .ok (registeredStore emptyStore "sample@gmail.com".data "Testpass123" "Basic user")
    ∧ (∃ tok st2, issueToken
          (registeredStore emptyStore "sample@gmail.com".data "Testpass123" "Basic user")
          "sample@gmail.com".data "Testpass123" = .ok (tok, st2) ∧ tok ≠ []) :=
  let h := C4_token_roundtrip emptyStore "sample@gmail.com".data "Testpass123"
    "Basic user" (by decide) (by decide) (by decide)
  ⟨h.1, h.2.1⟩

/-- C5: every request to a Tag, Ingredient, Recipe or profile endpoint whose
credential does not resolve to a user is rejected with a 401 and leaves the
store unchanged, and the only endpoints that are not guarded by the
authentication gate are registration and token issuance. -/
theorem C5_auth_gate (st : Store) (req : Request) :
    (req.requiresAuth = true → resolveToken st req.credential = none →
      handle st req = (401, st))
    ∧ (req.requiresAuth = false →
        (∃ e p n, req = .userCreate e p n) ∨ (∃ e p, req = .userToken e p)) := by
  constructor
  · intro hauth hnone
    cases req with
    | tagList c a =>
      simp only [Request.credential] at hnone
      simp [handle, hnone]
    | tagCreate c n =>
      simp only [Request.credential] at hnone
      simp [handle, hnone]
    | ingredientList c a =>
      simp only [Request.credential] at hnone
      simp [handle, hnone]
    | ingredientCreate c n =>
      simp only [Request.credential] at hnone
      simp [handle, hnone]
    | recipeList c tp ip =>
      simp only [Request.credential] at hnone
      simp [handle, hnone]
    | recipeCreate c t tm pr tg ing =>
      simp only [Request.credential] at hnone
      simp [handle, hnone]
    | recipeDetail c rid =>
      simp only [Request.credential] at hnone
      simp [handle, hnone]
    | userMe c =>
      simp only [Request.credential] at hnone
      simp [handle, hnone]
    | userCreate e p n => simp [Request.requiresAuth] at hauth
    | userToken e p => simp [Request.requiresAuth] at hauth
  · intro hpub
    cases req with
    | userCreate e p n => exact Or.inl ⟨e, p, n, rfl⟩
    | userToken e p => exact Or.inr ⟨e, p, rfl⟩
    | tagList c a => simp [Request.requiresAuth] at hpub
    | tagCreate c n => simp [Request.requiresAuth] at hpub
    | ingredientList c a => simp [Request.requiresAuth] at hpub
    | ingredientCreate c n => simp [Request.requiresAuth] at hpub
    | recipeList c tp ip => simp [Request.requiresAuth] at hpub
    | recipeCreate c t tm pr tg ing => simp [Request.requiresAuth] at hpub
    | recipeDetail c rid => simp [Request.requiresAuth] at hpub
    | userMe c => simp [Request.requiresAuth] at hpub

/-- Witness for C5: a tag list request with no credential against the
two-user store is answered 401 with the store unchanged. -/
theorem C5_auth_gate_witness :
    handle demoTwoUserStore (.tagList none none) = (401, demoTwoUserStore) :=
  (C5_auth_gate demoTwoUserStore (.tagList none none)).1 (by decide) (by decide)

/-- C6: with a resolved credential, creating a Tag, Ingredient or Recipe
with an empty required field (name, or title) is answered 400 with the
store unchanged, while a create with the required field non-empty is
answered 201 and appends exactly one row owned by the caller. -/
theorem C6_create_validation (st : Store) (cred : Option (List Char)) (caller : Nat)
    (tname iname ttitle : String) (tm pr : Nat) (tg ing : List Nat)
    (hres : resolveToken st cred = some caller)
    (hn : tname ≠ "") (hi : iname ≠ "") (ht : ttitle ≠ "") :
    handle st (.tagCreate cred "") = (400, st)
    ∧ handle st (.ingredientCreate cred "") = (400, st)
    ∧ handle st (.recipeCreate cred "" tm pr tg ing) = (400, st)
    ∧ handle st (.tagCreate cred tname)
        = (201, { st with tags := st.tags
            ++ [{ id := nextTagId st, user := caller, name := tname }] })
    ∧ handle st (.ingredientCreate cred iname)
        = (201, { st with ingredients := st.ingredients
            ++ [{ id := nextIngredientId st, user := caller, name := iname }] })
    ∧ handle st (.recipeCreate cred ttitle tm pr tg ing)
        = (201, { st with recipes := st.recipes
            ++ [{ id := nextRecipeId st, user := caller, title := ttitle,
                  time_minutes := tm, price := pr, tags := tg,
                  ingredients := ing, image := none }] }) := by
  refine ⟨?_, ?_, ?_, ?_, ?_, ?_⟩
  · simp [handle, hres, createTag]
  · simp [handle, hres, createIngredient]
  · simp [handle, hres, createRecipe]
  · simp [handle, hres, createTag, hn]
  · simp [handle, hres, createIngredient, hi]
  · simp [handle, hres, createRecipe, ht]

/-- Witness for C6: in the assigned-tags store, user 1 creating a tag with
an empty name is answered 400 with the store unchanged. -/
theorem C6_create_validation_witness :
    handle demoAssignedStore (.tagCreate (some "tok1".data) "") = (400, demoAssignedStore) :=
  (C6_create_validation demoAssignedStore (some "tok1".data) 1 "Simple" "Lettuce"
    "Fruit Cake" 30 10 [] [] (by decide) (by decide) (by decide) (by decide)).1

/-- C9: an email of the shape local-part, at-sign, domain (the at-sign shown
is the last one, so the domain contains none) accepted at registration is
stored with the domain lower-cased and the local part byte-for-byte
unchanged; registering with no email at all fails with an error. -/
theorem C9_email_normalization (st : Store) (lp dom : List Char) (pw pname : String)
    (hdom : '@' ∉ dom)
    (hfresh : ∀ u ∈ st.users, u.email ≠ normalize_email (lp ++ '@' :: dom)) :
    (create_user st (lp ++ '@' :: dom) pw pname
      = .ok { st with users := st.users ++
          [{ id := nextUserId st, email := lp ++ '@' :: dom.map Char.toLower,
             password := pw, name := pname }] })
    ∧ create_user st [] pw pname = .error 400 := by
  have hne : lp ++ '@' :: dom ≠ [] := by
    cases lp <;> simp
  have hany : st.users.any (fun u => u.email == normalize_email (lp ++ '@' :: dom))
      = false := by
    rw [List.any_eq_false]
    intro u hu
    simp [hfresh u hu]
  constructor
  · rw [create_user, if_neg hne, if_neg (by simp [hany]),
      normalize_email_split lp dom hdom]
  · rw [create_user, if_pos rfl]

/-- Witness for C9: registering sample@GMAIL.com in the empty store stores
sample@gmail.com, and registering an empty email fails. -/
theorem C9_email_normalization_witness :
    (create_user emptyStore ("sample".data ++ '@' :: "GMAIL.com".data) "Testpass123" "x"
      = .ok { emptyStore with users := emptyStore.users ++
          [{ id := nextUserId emptyStore,
             email := "sample".data ++ '@' :: ("GMAIL.com".data.map Char.toLower),
             password := "Testpass123", name := "x" }] })
    ∧ create_user emptyStore [] "Testpass123" "x" = .error 400 :=
  C9_email_normalization emptyStore "sample".data "GMAIL.com".data "Testpass123" "x"
    (by decide) (by decide)

end RecipeApp
